import Mathlib

set_option maxRecDepth 100000

/-!
Shallow embedding of the `github-oidc` crate (src/lib.rs): a validator for
GitHub Actions OIDC JSON Web Tokens.  The Rust source parses a JWKS document
into `GithubJWKS`, and `GithubJWKS::validate_github_token` checks a compact
JWT string against that key set, an optional expected audience, and the
`GITHUB_ORG` / `GITHUB_REPO` process environment variables.

The embedding models:
  * the data model (`JWK`, `GithubJWKS`, `GitHubClaims`) and the serde-derived
    JSON deserialization of the key set,
  * base64url (unpadded, URL-safe alphabet, as used by the `base64` crate
    configuration inside `jsonwebtoken`),
  * a JSON subset sufficient for JWT headers and payloads (objects, arrays,
    strings with simple escapes, non-negative integer numbers, booleans,
    null); serde-json corner cases outside this subset (floats, negative
    numbers, unicode escapes, non-ASCII bytes) are not exercised by any claim,
  * the semantics of `jsonwebtoken` v9 `decode_header`, `DecodingKey` and
    `decode::<GitHubClaims>` (algorithm-family pre-check, header algorithm
    check, signature check, then deserialization of the typed claims
    followed by claim validation: required numeric `exp` claim, expiry check
    with the default 60 second leeway, no default `nbf` check, audience
    check),
  * the validator itself, with the process environment made an explicit
    parameter (the Rust code reads it via `std::env::var` mid-validation)
    and the clock an explicit `now` parameter.

The RSA-SHA256 primitive (the `ring` crypto behind `jsonwebtoken`, not code
of this repository) is idealized: the unique valid signature of a message
under a public key is an injective encoding of the key and the message.
-/

/-- ASCII code of the opening curly brace (written numerically so that JSON
literals in this file stay readable). -/
def lbrace : Char := Char.ofNat 123

/-- ASCII code of the closing curly brace. -/
def rbrace : Char := Char.ofNat 125

/-- A JSON web key, mirroring `struct JWK` in src/lib.rs.  Field names follow
the Rust struct; serde therefore expects the JSON member names `kty`, `use_`,
`kid`, `alg`, `n`, `e`, `x5c`, `x5t`, `x5t_s256` (there is no serde rename
attribute in the source). -/
structure JWK where
  kty : String
  use_ : Option String
  kid : String
  alg : Option String
  n : String
  e : String
  x5c : Option (List String)
  x5t : Option String
  x5t_s256 : Option String
deriving DecidableEq, Repr

/-- A set of JSON web keys, mirroring `struct GithubJWKS` in src/lib.rs. -/
structure GithubJWKS where
  keys : List JWK
deriving DecidableEq, Repr

/-- The verified token payload, mirroring `struct GitHubClaims` in
src/lib.rs. -/
structure GitHubClaims where
  subject : String
  repository : String
  repository_owner : String
  job_workflow_ref : String
  iat : Nat
deriving DecidableEq, Repr

/-- JSON values (subset: integers stand in for JSON numbers). -/
inductive Json where
  | null : Json
  | bool : Bool → Json
  | num : Nat → Json
  | str : String → Json
  | arr : List Json → Json
  | obj : List (String × Json) → Json
deriving Repr

/-- Value of a base64url alphabet character ('A'-'Z', 'a'-'z', '0'-'9',
'-', '_'). -/
def b64Val (c : Char) : Option Nat :=
  let n := c.toNat
  if 65 ≤ n ∧ n ≤ 90 then some (n - 65)
  else if 97 ≤ n ∧ n ≤ 122 then some (n - 97 + 26)
  else if 48 ≤ n ∧ n ≤ 57 then some (n - 48 + 52)
  else if n = 45 then some 62
  else if n = 95 then some 63
  else none

/-- Character of a 6-bit value in the base64url alphabet. -/
def b64Char (n : Nat) : Char :=
  if n < 26 then Char.ofNat (65 + n)
  else if n < 52 then Char.ofNat (97 + (n - 26))
  else if n < 62 then Char.ofNat (48 + (n - 52))
  else if n = 62 then '-' else '_'

/-- Unpadded base64url decoding to bytes, as in the `base64` crate's
URL_SAFE_NO_PAD configuration (a single leftover character is invalid; the
canonical-trailing-bits check is omitted, no claim depends on it). -/
def b64urlDecode : List Char → Option (List Nat)
  | [] => some []
  | [_] => none
  | [c1, c2] =>
    match b64Val c1, b64Val c2 with
    | some v1, some v2 => some [v1 * 4 + v2 / 16]
    | _, _ => none
  | [c1, c2, c3] =>
    match b64Val c1, b64Val c2, b64Val c3 with
    | some v1, some v2, some v3 =>
      some [v1 * 4 + v2 / 16, (v2 % 16) * 16 + v3 / 4]
    | _, _, _ => none
  | c1 :: c2 :: c3 :: c4 :: rest =>
    match b64Val c1, b64Val c2, b64Val c3, b64Val c4, b64urlDecode rest with
    | some v1, some v2, some v3, some v4, some bs =>
      some ((v1 * 4 + v2 / 16) :: ((v2 % 16) * 16 + v3 / 4) ::
            ((v3 % 4) * 64 + v4) :: bs)
    | _, _, _, _, _ => none

/-- Unpadded base64url encoding of bytes (used to build concrete tokens). -/
def b64urlEncode : List Nat → List Char
  | [] => []
  | [b1] => [b64Char (b1 / 4), b64Char ((b1 % 4) * 16)]
  | [b1, b2] =>
    [b64Char (b1 / 4), b64Char ((b1 % 4) * 16 + b2 / 16), b64Char ((b2 % 16) * 4)]
  | b1 :: b2 :: b3 :: rest =>
    b64Char (b1 / 4) :: b64Char ((b1 % 4) * 16 + b2 / 16) ::
    b64Char ((b2 % 16) * 4 + b3 / 64) :: b64Char (b3 % 64) :: b64urlEncode rest

/-- Bytes to characters; the embedding handles ASCII documents (all concrete
claim inputs are ASCII). -/
def asciiChars? : List Nat → Option (List Char)
  | [] => some []
  | b :: bs =>
    if b < 128 then
      match asciiChars? bs with
      | some cs => some (Char.ofNat b :: cs)
      | none => none
    else none

/-- Skip JSON whitespace. -/
def skipWs : List Char → List Char
  | c :: cs => if c = ' ' ∨ c = '\n' ∨ c = '\t' ∨ c = '\r' then skipWs cs else c :: cs
  | [] => []

/-- Parse the body of a JSON string literal after the opening quote; returns
the contents and the rest after the closing quote.  Escapes handled: quote,
backslash, slash, n, t, r. -/
def parseStringBody : List Char → Option (List Char × List Char)
  | [] => none
  | '"' :: cs => some ([], cs)
  | '\\' :: c :: cs =>
    match
      (match c with
       | '"' => some '"'
       | '\\' => some '\\'
       | '/' => some '/'
       | 'n' => some '\n'
       | 't' => some '\t'
       | 'r' => some '\r'
       | _ => none) with
    | none => none
    | some esc =>
      match parseStringBody cs with
      | some (body, rest) => some (esc :: body, rest)
      | none => none
  | c :: cs =>
    if c = '\\' then none
    else
      match parseStringBody cs with
      | some (body, rest) => some (c :: body, rest)
      | none => none

/-- Accumulate decimal digits. -/
def digitsLoop (acc : Nat) : List Char → Nat × List Char
  | c :: cs => if c.isDigit then digitsLoop (acc * 10 + (c.toNat - 48)) cs else (acc, c :: cs)
  | [] => (acc, [])

/-- Parse a non-negative integer JSON number (at least one digit). -/
def parseDigits : List Char → Option (Nat × List Char)
  | c :: cs => if c.isDigit then some (digitsLoop (c.toNat - 48) cs) else none
  | [] => none

mutual

/-- Fueled parser for one JSON value. -/
def parseJsonF : Nat → List Char → Option (Json × List Char)
  | 0, _ => none
  | fuel + 1, cs =>
    match skipWs cs with
    | 't' :: 'r' :: 'u' :: 'e' :: rest => some (.bool true, rest)
    | 'f' :: 'a' :: 'l' :: 's' :: 'e' :: rest => some (.bool false, rest)
    | 'n' :: 'u' :: 'l' :: 'l' :: rest => some (.null, rest)
    | '"' :: rest =>
      match parseStringBody rest with
      | some (b, r) => some (.str (String.mk b), r)
      | none => none
    | c :: rest =>
      if c = lbrace then
        match skipWs rest with
        | d :: ds =>
          if d = rbrace then some (.obj [], ds)
          else
            match parseMembersF fuel (d :: ds) with
            | some (ms, r) => some (.obj ms, r)
            | none => none
        | [] => none
      else if c = '[' then
        match skipWs rest with
        | d :: ds =>
          if d = ']' then some (.arr [], ds)
          else
            match parseElemsF fuel (d :: ds) with
            | some (es, r) => some (.arr es, r)
            | none => none
        | [] => none
      else if c.isDigit then
        match parseDigits (c :: rest) with
        | some (n, r) => some (.num n, r)
        | none => none
      else none
    | [] => none

/-- Fueled parser for the members of a JSON object (positioned at the first
character of a key). -/
def parseMembersF : Nat → List Char → Option (List (String × Json) × List Char)
  | 0, _ => none
  | fuel + 1, cs =>
    match skipWs cs with
    | '"' :: rest =>
      match parseStringBody rest with
      | none => none
      | some (k, r1) =>
        match skipWs r1 with
        | ':' :: r2 =>
          match parseJsonF fuel r2 with
          | none => none
          | some (v, r3) =>
            match skipWs r3 with
            | ',' :: r4 =>
              match parseMembersF fuel r4 with
              | none => none
              | some (ms, r5) => some ((String.mk k, v) :: ms, r5)
            | d :: r4 => if d = rbrace then some ([(String.mk k, v)], r4) else none
            | [] => none
        | _ => none
    | _ => none

/-- Fueled parser for the elements of a JSON array (positioned at the first
character of an element). -/
def parseElemsF : Nat → List Char → Option (List Json × List Char)
  | 0, _ => none
  | fuel + 1, cs =>
    match parseJsonF fuel cs with
    | none => none
    | some (v, r1) =>
      match skipWs r1 with
      | ',' :: r2 =>
        match parseElemsF fuel r2 with
        | none => none
        | some (es, r3) => some (v :: es, r3)
      | ']' :: r2 => some ([v], r2)
      | _ => none

end

/-- Parse a complete JSON document (no trailing garbage). -/
def parseJsonDoc (cs : List Char) : Option Json :=
  match parseJsonF (cs.length + 1) cs with
  | some (j, rest) =>
    match skipWs rest with
    | [] => some j
    | _ => none
  | none => none

/-- Look up a member of a JSON object (first occurrence). -/
def jsonLookup (j : Json) (key : String) : Option Json :=
  match j with
  | .obj fields =>
    match fields.find? (fun p => p.1 == key) with
    | some p => some p.2
    | none => none
  | _ => none

/-- JWT algorithms recognized by `jsonwebtoken` (the serde names of its
`Algorithm` enum; an unrecognized `alg` string makes header decoding fail). -/
inductive Algorithm where
  | HS256 | HS384 | HS512
  | ES256 | ES384
  | RS256 | RS384 | RS512
  | PS256 | PS384 | PS512
  | EdDSA
deriving DecidableEq, Repr

/-- Key/algorithm families used by `jsonwebtoken`'s pre-check that the
decoding key can serve the requested algorithms. -/
inductive AlgFamily where
  | Hmac | Rsa | Ec | Ed
deriving DecidableEq, Repr

/-- Family of an algorithm (jsonwebtoken `Algorithm::family`). -/
def algFamily : Algorithm → AlgFamily
  | .HS256 | .HS384 | .HS512 => .Hmac
  | .RS256 | .RS384 | .RS512 | .PS256 | .PS384 | .PS512 => .Rsa
  | .ES256 | .ES384 => .Ec
  | .EdDSA => .Ed

/-- Parse a serde algorithm name. -/
def algFromString (s : String) : Option Algorithm :=
  if s = "HS256" then some .HS256
  else if s = "HS384" then some .HS384
  else if s = "HS512" then some .HS512
  else if s = "ES256" then some .ES256
  else if s = "ES384" then some .ES384
  else if s = "RS256" then some .RS256
  else if s = "RS384" then some .RS384
  else if s = "RS512" then some .RS512
  else if s = "PS256" then some .PS256
  else if s = "PS384" then some .PS384
  else if s = "PS512" then some .PS512
  else if s = "EdDSA" then some .EdDSA
  else none

/-- The decoded JWT header fields the validator uses (jsonwebtoken `Header`:
`alg` is required, `kid` optional; other header members are ignored here). -/
structure JwtHeader where
  alg : Algorithm
  kid : Option String
deriving DecidableEq, Repr

/-- A verification key as built by `jsonwebtoken::DecodingKey`: either an RSA
key from decoded modulus/exponent bytes, or an HMAC secret
(`DecodingKey::from_secret`). -/
inductive DecodingKey where
  | rsa : List Nat → List Nat → DecodingKey
  | secret : List Nat → DecodingKey
deriving DecidableEq, Repr

/-- Family of a decoding key. -/
def keyFamily : DecodingKey → AlgFamily
  | .rsa _ _ => .Rsa
  | .secret _ => .Hmac

/-- ASCII bytes of a string. -/
def strBytes (s : String) : List Nat := s.data.map Char.toNat

/-- The bytes of the fixed secret `"your_secret_key"` that src/lib.rs line
154 falls back to when the token header carries no `kid`. -/
def secretKeyBytes : List Nat := strBytes "your_secret_key"

/-- Split a character list at its last dot: `some (before, after)`, or `none`
when no dot occurs.  This is how `jsonwebtoken` carves a compact token with
`rsplitn(2, '.')`. -/
def splitLastDot : List Char → Option (List Char × List Char)
  | [] => none
  | c :: cs =>
    match splitLastDot cs with
    | some (before, after) => some (c :: before, after)
    | none => if c = '.' then some ([], cs) else none

/-- Base64url-decode a token segment and parse it as a JSON document. -/
def segmentJson (seg : List Char) : Option Json :=
  match b64urlDecode seg with
  | none => none
  | some bs =>
    match asciiChars? bs with
    | none => none
    | some cs => parseJsonDoc cs

/-- Deserialize a JWT header from a JSON value (jsonwebtoken `Header`
deserialization: `alg` required and a known algorithm name, `kid` an optional
string). -/
def headerFromJson (j : Json) : Option JwtHeader :=
  match j with
  | .obj _ =>
    match jsonLookup j "alg" with
    | some (.str a) =>
      match algFromString a with
      | some alg =>
        match jsonLookup j "kid" with
        | some (.str k) => some ⟨alg, some k⟩
        | some .null => some ⟨alg, none⟩
        | none => some ⟨alg, none⟩
        | some _ => none
      | none => none
    | _ => none
  | _ => none

/-- jsonwebtoken `Header::from_encoded`. -/
def headerFromEncoded (seg : List Char) : Option JwtHeader :=
  match segmentJson seg with
  | some j => headerFromJson j
  | none => none

/-- jsonwebtoken `decode_header`: split off the signature and payload from
the right, then decode the remaining (header) segment. -/
def decode_header (token : String) : Option JwtHeader :=
  match splitLastDot token.data with
  | none => none
  | some (message, _sig) =>
    match splitLastDot message with
    | none => none
    | some (headerSeg, _payload) => headerFromEncoded headerSeg

/-- jsonwebtoken `DecodingKey::from_rsa_components`: base64url-decode the
modulus and exponent text. -/
def from_rsa_components (n e : String) : Option DecodingKey :=
  match b64urlDecode n.data, b64urlDecode e.data with
  | some nb, some eb => some (.rsa nb eb)
  | _, _ => none

/-- Two length bytes (big-endian, for lengths below 65536). -/
def lenBytes (k : Nat) : List Nat := [k / 256 % 256, k % 256]

/-- Idealized RSASSA-PKCS1-v1_5 / SHA-256 signing primitive (the `ring`
crypto behind `jsonwebtoken`, not code of this repository): the unique valid
signature of `message` under the public key with modulus bytes `n` and
exponent bytes `e` is a length-prefixed encoding of key and message
(injective for byte lists shorter than 65536, which covers everything
exercised here, and round-trippable through base64url). -/
def rs256Sign (n e : List Nat) (message : List Char) : List Nat :=
  lenBytes n.length ++ n ++ lenBytes e.length ++ e ++ message.map Char.toNat

/-- Signature verification as dispatched by `jsonwebtoken::verify`, in the
idealized model: only an RSA key together with the RS256 algorithm can verify
(matching the claim that verification uses RSA with SHA-256 exclusively;
other key/algorithm pairs never arise under `Validation::new(RS256)`). -/
def verifySig (key : DecodingKey) (alg : Algorithm) (message : List Char)
    (sig : List Nat) : Bool :=
  match key, alg with
  | .rsa n e, .RS256 => sig == rs256Sign n e message
  | _, _ => false

/-- The subset of `jsonwebtoken::Validation` state exercised by the source:
`Validation::new(Algorithm::RS256)` plus an optional `set_audience` call. -/
structure JwtValidation where
  algorithms : List Algorithm
  aud : Option (List String)
  requireExp : Bool
  validate_exp : Bool
  validate_nbf : Bool
  leeway : Nat
deriving DecidableEq, Repr

/-- The validation the source builds: `Validation::new(Algorithm::RS256)`
(required spec claims `exp`, `validate_exp` on, `validate_nbf` off, 60 second
leeway — jsonwebtoken v9 defaults), with the audience set when the caller
supplies an expected audience. -/
def mkValidation (expectedAudience : Option String) : JwtValidation :=
  { algorithms := [.RS256]
    aud := expectedAudience.map (fun a => [a])
    requireExp := true
    validate_exp := true
    validate_nbf := false
    leeway := 60 }

/-- Errors surfaced from inside `jsonwebtoken::decode` (the source wraps them
all in one `anyhow` message "Failed to decode token: ..."; the kind is kept
so the spec's error taxonomy can be stated). -/
inductive DecodeErrorKind where
  | invalidToken
  | json
  | missingAlgorithm
  | invalidAlgorithm
  | invalidSignature
  | missingRequiredClaim
  | expiredSignature
  | immatureSignature
  | invalidAudience
deriving DecidableEq, Repr

/-- The validator's error kinds, one per distinguishable failure return in
`validate_github_token` (src/lib.rs lines 126-188). -/
inductive VError where
  | malformedToken
  | headerDecode
  | keyNotFound
  | keyConstruction
  | tokenDecode : DecodeErrorKind → VError
  | organizationMismatch
  | repositoryMismatch
deriving DecidableEq, Repr

/-- Audience check of jsonwebtoken v9 claim validation: applied only when an
expected audience set is configured; a present `aud` claim must be a string
or an array of strings intersecting the expected set; an absent `aud` claim
is not an error under the default required claims. -/
def audCheck (p : Json) (expected : Option (List String)) : Option DecodeErrorKind :=
  match expected with
  | none => none
  | some correct =>
    match jsonLookup p "aud" with
    | none => none
    | some (.str a) => if correct.contains a then none else some .invalidAudience
    | some (.arr xs) =>
      if xs.all (fun x => match x with | .str _ => true | _ => false) then
        if xs.any (fun x => match x with | .str s => correct.contains s | _ => false)
        then none
        else some .invalidAudience
      else some .invalidAudience
    | some _ => some .invalidAudience

/-- Whether the `exp` claim deserializes as a number.  jsonwebtoken counts a
required claim as present only when it parses (TryParse::Parsed), so a
present-but-non-numeric `exp` still fails the required-claim check. -/
def expParsed (p : Json) : Bool :=
  match jsonLookup p "exp" with
  | some (.num _) => true
  | _ => false

/-- Expiry check (jsonwebtoken v9): with `validate_exp` on, a numeric `exp`
claim must satisfy `now - leeway ≤ exp`. -/
def expCheck (p : Json) (v : JwtValidation) (now : Nat) : Option DecodeErrorKind :=
  if v.validate_exp then
    match jsonLookup p "exp" with
    | some (.num e) => if e + v.leeway < now then some .expiredSignature else none
    | _ => none
  else none

/-- Not-before check (off by default in `Validation::new`). -/
def nbfCheck (p : Json) (v : JwtValidation) (now : Nat) : Option DecodeErrorKind :=
  if v.validate_nbf then
    match jsonLookup p "nbf" with
    | some (.num n) => if now + v.leeway < n then some .immatureSignature else none
    | _ => none
  else none

/-- jsonwebtoken v9 claim validation: required claims (`exp` by default,
counted present only when it parses as a number), then expiry, then
not-before, then audience.  `iat` is never checked. -/
def validateClaims (p : Json) (v : JwtValidation) (now : Nat) : Option DecodeErrorKind :=
  if v.requireExp && !expParsed p then some .missingRequiredClaim
  else
    match expCheck p v now with
    | some k => some k
    | none =>
      match nbfCheck p v now with
      | some k => some k
      | none => audCheck p v.aud

/-- Deserialization of the verified payload into `GitHubClaims` (serde: the
five fields required, unknown members ignored). -/
def claimsFromJson (j : Json) : Option GitHubClaims :=
  match j with
  | .obj _ =>
    match jsonLookup j "subject", jsonLookup j "repository",
          jsonLookup j "repository_owner", jsonLookup j "job_workflow_ref",
          jsonLookup j "iat" with
    | some (.str sub), some (.str repo), some (.str owner),
      some (.str ref), some (.num iat) => some ⟨sub, repo, owner, ref, iat⟩
    | _, _, _, _, _ => none
  | _ => none

/-- jsonwebtoken v9 `decode::<GitHubClaims>`: key-family pre-check, token
splitting, header algorithm check, signature verification, then payload
decoding, deserialization of the typed claims, and claim validation —
`decode` deserializes into the target claims type (`GitHubClaims`) before
running the exp/nbf/aud validation, so a payload failing that
deserialization gets the serde error even if it is also expired or carries
the wrong audience.  Payload base64/JSON failures are collapsed into the
`json` kind (the source folds every kind into one anyhow string anyway). -/
def jwtDecode (token : String) (key : DecodingKey) (v : JwtValidation)
    (now : Nat) : Except DecodeErrorKind GitHubClaims :=
  if v.algorithms.isEmpty then .error .missingAlgorithm
  else if v.algorithms.any (fun a => algFamily a ≠ keyFamily key) then
    .error .invalidAlgorithm
  else
    match splitLastDot token.data with
    | none => .error .invalidToken
    | some (message, sigSeg) =>
      match splitLastDot message with
      | none => .error .invalidToken
      | some (headerSeg, payloadSeg) =>
        match headerFromEncoded headerSeg with
        | none => .error .invalidToken
        | some header =>
          if header.alg ∉ v.algorithms then .error .invalidAlgorithm
          else
            match b64urlDecode sigSeg with
            | none => .error .invalidSignature
            | some sigBytes =>
              if verifySig key header.alg message sigBytes then
                match segmentJson payloadSeg with
                | none => .error .json
                | some p =>
                  match claimsFromJson p with
                  | none => .error .json
                  | some c =>
                    match validateClaims p v now with
                    | some k => .error k
                    | none => .ok c
              else .error .invalidSignature

/-- The process environment as read by `std::env::var("GITHUB_ORG")` and
`std::env::var("GITHUB_REPO")` inside the validator (made explicit so the
dependence on global state can be stated). -/
structure Env where
  github_org : Option String
  github_repo : Option String
deriving DecidableEq, Repr

/-- Pre-check of src/lib.rs line 126: `token.starts_with("eyJ")` (byte
prefix; for ASCII prefixes this equals the character prefix). -/
def startsWithEyJ (s : String) : Bool :=
  match s.data with
  | 'e' :: 'y' :: 'J' :: _ => true
  | _ => false

/-- Key resolution of src/lib.rs lines 141-155: with a `kid`, find the first
matching JWK and build an RSA decoding key from its components; with no
`kid`, fall back to `DecodingKey::from_secret("your_secret_key")`. -/
def resolveKey (kid? : Option String) (jwks : GithubJWKS) : Except VError DecodingKey :=
  match kid? with
  | some kid =>
    match jwks.keys.find? (fun k => k.kid == kid) with
    | none => .error .keyNotFound
    | some k =>
      match from_rsa_components k.n k.e with
      | some dk => .ok dk
      | none => .error .keyConstruction
  | none => .ok (.secret secretKeyBytes)

/-- The organization/repository binding of src/lib.rs lines 167-189: the
`GITHUB_ORG` check runs exactly when that variable is set, then the
`GITHUB_REPO` check exactly when that one is set; both are case-sensitive
string equality. -/
def envCheck (env : Env) (c : GitHubClaims) : Except VError GitHubClaims :=
  match env.github_org with
  | some org =>
    if c.repository_owner ≠ org then .error .organizationMismatch
    else
      match env.github_repo with
      | some repo => if c.repository ≠ repo then .error .repositoryMismatch else .ok c
      | none => .ok c
  | none =>
    match env.github_repo with
    | some repo => if c.repository ≠ repo then .error .repositoryMismatch else .ok c
    | none => .ok c

/-- `validate_github_token` up to (and including) `jsonwebtoken::decode`:
format pre-check, header decode, key resolution, decode (src/lib.rs lines
126-165). -/
def validateCore (token : String) (jwks : GithubJWKS)
    (expected_audience : Option String) (now : Nat) : Except VError GitHubClaims :=
  if !startsWithEyJ token then .error .malformedToken
  else
    match decode_header token with
    | none => .error .headerDecode
    | some header =>
      match resolveKey header.kid jwks with
      | .error e => .error e
      | .ok key =>
        match jwtDecode token key (mkValidation expected_audience) now with
        | .error k => .error (.tokenDecode k)
        | .ok c => .ok c

/-- `GithubJWKS::validate_github_token` (src/lib.rs lines 120-193; the free
function at lines 196-202 merely delegates to it).  The `jwks` argument is
the key-set snapshot read from the shared lock, `env` the process
environment, `now` the clock read inside claim validation. -/
def validate_github_token (token : String) (jwks : GithubJWKS)
    (expected_audience : Option String) (env : Env) (now : Nat) :
    Except VError GitHubClaims :=
  match validateCore token jwks expected_audience now with
  | .error e => .error e
  | .ok c => envCheck env c

/-- Serde required string field: present and a JSON string. -/
def reqStringField (j : Json) (k : String) : Option String :=
  match jsonLookup j k with
  | some (.str s) => some s
  | _ => none

/-- Serde `Option<String>` field: absent or null gives `none`, a string gives
`some`, any other type is a deserialization error. -/
def optStringField (j : Json) (k : String) : Option (Option String) :=
  match jsonLookup j k with
  | none => some none
  | some .null => some none
  | some (.str s) => some (some s)
  | some _ => none

/-- A JSON array of strings. -/
def strList? : List Json → Option (List String)
  | [] => some []
  | .str s :: xs =>
    match strList? xs with
    | some ss => some (s :: ss)
    | none => none
  | _ :: _ => none

/-- Serde `Option<Vec<String>>` field. -/
def optStrListField (j : Json) (k : String) : Option (Option (List String)) :=
  match jsonLookup j k with
  | none => some none
  | some .null => some none
  | some (.arr xs) =>
    match strList? xs with
    | some ss => some (some ss)
    | none => none
  | some _ => none

/-- Serde-derived deserialization of one `JWK` (src/lib.rs lines 13-33):
`kty`, `kid`, `n`, `e` required strings; `use_`, `alg`, `x5c`, `x5t`,
`x5t_s256` optional; unknown members ignored.  No further validation is
performed by the derive. -/
def jwkFromJson (j : Json) : Option JWK :=
  match j with
  | .obj _ =>
    match reqStringField j "kty", optStringField j "use_", reqStringField j "kid",
          optStringField j "alg", reqStringField j "n", reqStringField j "e",
          optStrListField j "x5c", optStringField j "x5t",
          optStringField j "x5t_s256" with
    | some kty, some u, some kid, some alg, some n, some e, some x5c,
      some x5t, some x5ts => some ⟨kty, u, kid, alg, n, e, x5c, x5t, x5ts⟩
    | _, _, _, _, _, _, _, _, _ => none
  | _ => none

/-- Sequence deserialization over `Option` (order preserving, first failure
wins, as serde does for `Vec<JWK>`). -/
def optMapM (f : Json → Option JWK) : List Json → Option (List JWK)
  | [] => some []
  | x :: xs =>
    match f x, optMapM f xs with
    | some y, some ys => some (y :: ys)
    | _, _ => none

/-- Serde-derived deserialization of `GithubJWKS` (src/lib.rs lines 50-54),
the parsing step of `fetch_jwks` (`response.json::<GithubJWKS>()`): an object
with a `keys` array of JWKs. -/
def githubJWKSFromJson (j : Json) : Option GithubJWKS :=
  match jsonLookup j "keys" with
  | some (.arr ks) =>
    match optMapM jwkFromJson ks with
    | some keys => some ⟨keys⟩
    | none => none
  | _ => none

/-- Shape of one key that serde accepts, stated directly as a predicate. -/
def jwkShapeOk (j : Json) : Bool :=
  (match j with | .obj _ => true | _ => false) &&
  (reqStringField j "kty").isSome && (optStringField j "use_").isSome &&
  (reqStringField j "kid").isSome && (optStringField j "alg").isSome &&
  (reqStringField j "n").isSome && (reqStringField j "e").isSome &&
  (optStrListField j "x5c").isSome && (optStringField j "x5t").isSome &&
  (optStringField j "x5t_s256").isSome

/-- Shape of a whole JWKS document that serde accepts. -/
def docShapeOk (j : Json) : Bool :=
  match jsonLookup j "keys" with
  | some (.arr ks) => ks.all jwkShapeOk
  | _ => false

/-- All strings in the list distinct. -/
def allDistinct : List String → Bool
  | [] => true
  | x :: xs => (!xs.contains x) && allDistinct xs

/-- Follows the spec's words (section 3, SigningKey and KeySet invariants),
for comparison with the serde parser translated from the source: every key
has key type "RSA", non-empty modulus and exponent that decode as unpadded
base64url to valid unsigned big-integers, and `kid` values unique within the
snapshot. -/
def specKeySetInvariant (ks : GithubJWKS) : Bool :=
  ks.keys.all (fun k =>
    k.kty == "RSA" && !(k.n == "") && !(k.e == "") &&
    (b64urlDecode k.n.data).isSome && (b64urlDecode k.e.data).isSome) &&
  allDistinct (ks.keys.map (fun k => k.kid))

/-- First dot-separated segment of a string (the claim about the format
pre-check speaks of the token's first segment). -/
def firstSegment (s : String) : List Char :=
  s.data.takeWhile (fun c => c ≠ '.')

/-- JSON text of a canonical RS256 header with `kid` "k1". -/
def hdr1Json : String := "\x7b\"alg\":\"RS256\",\"kid\":\"k1\"\x7d"

/-- JSON text of a payload carrying the standard GitHub claims, issued at
1700000000 and expiring at 1700000600. -/
def payload1Json : String :=
  "\x7b\"subject\":\"sub\",\"repository\":\"org/repo\",\"repository_owner\":\"org\",\"job_workflow_ref\":\"ref\",\"iat\":1700000000,\"exp\":1700000600\x7d"

/-- The published key "k1" (modulus and exponent are valid unpadded base64url
text; "AQAB" decodes to the bytes [1, 0, 1]). -/
def key1 : JWK := ⟨"RSA", none, "k1", some "RS256", "AQAB", "AQAB", none, none, none⟩

/-- A key set holding exactly `key1`. -/
def jwks1 : GithubJWKS := ⟨[key1]⟩

/-- The empty key set (fetch in progress or issuer unreachable). -/
def jwksEmpty : GithubJWKS := ⟨[]⟩

/-- Decoded modulus bytes of `key1`. -/
def nb1 : List Nat := [1, 0, 1]

/-- Decoded exponent bytes of `key1`. -/
def eb1 : List Nat := [1, 0, 1]

/-- An environment with neither `GITHUB_ORG` nor `GITHUB_REPO` set. -/
def env0 : Env := ⟨none, none⟩

/-- Validation-time clock for the concrete tokens. -/
def now1 : Nat := 1700000000

/-- Encoded header segment of the canonical token. -/
def hdrSeg1 : List Char := b64urlEncode (strBytes hdr1Json)

/-- Encoded payload segment of the canonical token. -/
def pldSeg1 : List Char := b64urlEncode (strBytes payload1Json)

/-- Signing input (header segment, dot, payload segment). -/
def msg1 : List Char := hdrSeg1 ++ ('.' :: pldSeg1)

/-- Signature segment: the idealized RS256 signature of `msg1` under `key1`,
base64url-encoded. -/
def sigSeg1 : List Char := b64urlEncode (rs256Sign nb1 eb1 msg1)

/-- A well-formed token, correctly signed by the private counterpart of
`key1`, carrying the standard claims. -/
def tok1 : String := String.mk (msg1 ++ ('.' :: sigSeg1))

/-- The claims asserted inside `tok1`. -/
def claims1 : GitHubClaims := ⟨"sub", "org/repo", "org", "ref", 1700000000⟩

/-- The parsed payload object of `tok1`. -/
def pJson1 : Json :=
  .obj [("subject", .str "sub"), ("repository", .str "org/repo"),
        ("repository_owner", .str "org"), ("job_workflow_ref", .str "ref"),
        ("iat", .num 1700000000), ("exp", .num 1700000600)]

/-- Header JSON with no `kid` member. -/
def hdrNoKidJson : String := "\x7b\"alg\":\"RS256\"\x7d"

/-- A token whose decoded header has no `kid` (signature bytes arbitrary). -/
def tokNoKid : String :=
  String.mk (b64urlEncode (strBytes hdrNoKidJson) ++
    ('.' :: b64urlEncode (strBytes payload1Json)) ++ ('.' :: b64urlEncode [1, 2, 3]))

/-- Header JSON declaring HS256 with `kid` "k1". -/
def hdrHSJson : String := "\x7b\"alg\":\"HS256\",\"kid\":\"k1\"\x7d"

/-- Encoded header segment of the HS256 token. -/
def hdrSegHS : List Char := b64urlEncode (strBytes hdrHSJson)

/-- A token declaring algorithm HS256 under the known key id "k1". -/
def tokHS : String :=
  String.mk (hdrSegHS ++ ('.' :: pldSeg1) ++ ('.' :: b64urlEncode [1, 2, 3]))

/-- A string that starts with "eyJ" but whose first segment decodes to a JSON
object with no algorithm member. -/
def tokFoo : String :=
  String.mk (b64urlEncode (strBytes "\x7b\"foo\":\"bar\"\x7d") ++
    ('.' :: b64urlEncode (strBytes "\x7b\x7d")) ++ ('.' :: b64urlEncode [1]))

/-- Payload with audience claim ["aud1"]. -/
def payloadAud1Json : String :=
  "\x7b\"subject\":\"sub\",\"repository\":\"org/repo\",\"repository_owner\":\"org\",\"job_workflow_ref\":\"ref\",\"iat\":1700000000,\"exp\":1700000600,\"aud\":[\"aud1\"]\x7d"

/-- Payload with audience claim ["aud2"]. -/
def payloadAud2Json : String :=
  "\x7b\"subject\":\"sub\",\"repository\":\"org/repo\",\"repository_owner\":\"org\",\"job_workflow_ref\":\"ref\",\"iat\":1700000000,\"exp\":1700000600,\"aud\":[\"aud2\"]\x7d"

/-- Encoded payload segment, audience ["aud1"]. -/
def pldSegAud1 : List Char := b64urlEncode (strBytes payloadAud1Json)

/-- Encoded payload segment, audience ["aud2"]. -/
def pldSegAud2 : List Char := b64urlEncode (strBytes payloadAud2Json)

/-- Signing input of the audience-["aud1"] token. -/
def msgAud1 : List Char := hdrSeg1 ++ ('.' :: pldSegAud1)

/-- Signing input of the audience-["aud2"] token. -/
def msgAud2 : List Char := hdrSeg1 ++ ('.' :: pldSegAud2)

/-- Correctly signed token whose audience claim is ["aud1"]. -/
def tokAud1 : String :=
  String.mk (msgAud1 ++ ('.' :: b64urlEncode (rs256Sign nb1 eb1 msgAud1)))

/-- Correctly signed token whose audience claim is ["aud2"]. -/
def tokAud2 : String :=
  String.mk (msgAud2 ++ ('.' :: b64urlEncode (rs256Sign nb1 eb1 msgAud2)))

/-- Parsed payload object of `tokAud1`. -/
def pJsonAud1 : Json :=
  .obj [("subject", .str "sub"), ("repository", .str "org/repo"),
        ("repository_owner", .str "org"), ("job_workflow_ref", .str "ref"),
        ("iat", .num 1700000000), ("exp", .num 1700000600),
        ("aud", .arr [.str "aud1"])]

/-- Parsed payload object of `tokAud2`. -/
def pJsonAud2 : Json :=
  .obj [("subject", .str "sub"), ("repository", .str "org/repo"),
        ("repository_owner", .str "org"), ("job_workflow_ref", .str "ref"),
        ("iat", .num 1700000000), ("exp", .num 1700000600),
        ("aud", .arr [.str "aud2"])]

/-- Payload expired long ago (exp 1600000000, far beyond any leeway). -/
def payloadExpiredJson : String :=
  "\x7b\"subject\":\"sub\",\"repository\":\"org/repo\",\"repository_owner\":\"org\",\"job_workflow_ref\":\"ref\",\"iat\":1600000000,\"exp\":1600000000\x7d"

/-- Payload whose exp (1699999970) is 30 seconds in the past at `now1`,
within the default 60 second leeway. -/
def payloadLeewayJson : String :=
  "\x7b\"subject\":\"sub\",\"repository\":\"org/repo\",\"repository_owner\":\"org\",\"job_workflow_ref\":\"ref\",\"iat\":1699999000,\"exp\":1699999970\x7d"

/-- Encoded payload segment of the long-expired payload. -/
def pldSegExpired : List Char := b64urlEncode (strBytes payloadExpiredJson)

/-- Signing input of the expired tokens. -/
def msgExpired : List Char := hdrSeg1 ++ ('.' :: pldSegExpired)

/-- Long-expired token with an invalid signature (the signature segment
decodes to bytes that are not the key's signature of the message). -/
def tokExpiredBadSig : String :=
  String.mk (msgExpired ++ ('.' :: b64urlEncode [9, 9, 9]))

/-- Long-expired token with a valid signature. -/
def tokExpired : String :=
  String.mk (msgExpired ++ ('.' :: b64urlEncode (rs256Sign nb1 eb1 msgExpired)))

/-- Parsed payload object of the expired tokens. -/
def pJsonExpired : Json :=
  .obj [("subject", .str "sub"), ("repository", .str "org/repo"),
        ("repository_owner", .str "org"), ("job_workflow_ref", .str "ref"),
        ("iat", .num 1600000000), ("exp", .num 1600000000)]

/-- Signing input of the within-leeway token. -/
def msgLeeway : List Char := hdrSeg1 ++ ('.' :: b64urlEncode (strBytes payloadLeewayJson))

/-- Correctly signed token whose exp is 30 seconds in the past at `now1`. -/
def tokLeeway : String :=
  String.mk (msgLeeway ++ ('.' :: b64urlEncode (rs256Sign nb1 eb1 msgLeeway)))

/-- Claims asserted inside `tokLeeway`. -/
def claimsLeeway : GitHubClaims := ⟨"sub", "org/repo", "org", "ref", 1699999000⟩

/-- A JWKS document that serde accepts although it breaks every clause of the
spec's key-set invariant: the first key has key type "EC", an empty modulus
and an exponent that is not valid base64url; both keys share the `kid`
"a". -/
def badDoc : Json :=
  .obj [("keys", .arr
    [.obj [("kty", .str "EC"), ("kid", .str "a"), ("n", .str ""),
           ("e", .str "!!")],
     .obj [("kty", .str "RSA"), ("kid", .str "a"), ("n", .str "AQAB"),
           ("e", .str "AQAB")]])]

/-- The key set parsed from `badDoc`. -/
def badKS : GithubJWKS :=
  ⟨[⟨"EC", none, "a", none, "", "!!", none, none, none⟩,
    ⟨"RSA", none, "a", none, "AQAB", "AQAB", none, none, none⟩]⟩

/-- C1: the claim says a token without `kid` must fail with a
HeaderDecodeError-kind hard failure, with no verification attempt against a
key outside the published KeySet.  The code instead resolves the missing-kid
case to `DecodingKey::from_secret("your_secret_key")` — a fixed static secret
that is not drawn from the KeySet — and the validation then fails only inside
`decode`, with an algorithm-family mismatch reported as a decode error, not
as a header-decode error.  This theorem exhibits that behavior of the code at
a concrete kid-less token. -/
theorem c1_static_secret_fallback :
    resolveKey none jwks1 = .ok (.secret secretKeyBytes) ∧
    decode_header tokNoKid = some ⟨.RS256, none⟩ ∧
    validate_github_token tokNoKid jwks1 none env0 now1 =
      .error (.tokenDecode .invalidAlgorithm) :=
  ⟨rfl, rfl, rfl⟩

/-- C3: a token whose header `kid` matches no key in the KeySet snapshot
fails with KeyNotFoundError, whatever the rest of the token, the audience,
the environment or the clock. -/
theorem c3_key_not_found (token : String) (jwks : GithubJWKS)
    (expected_audience : Option String) (env : Env) (now : Nat)
    (h : JwtHeader) (kid : String)
    (hpre : startsWithEyJ token = true)
    (hhdr : decode_header token = some h)
    (hkid : h.kid = some kid)
    (hfind : jwks.keys.find? (fun k => k.kid == kid) = none) :
    validate_github_token token jwks expected_audience env now = .error .keyNotFound := by
  unfold validate_github_token validateCore
  simp [hpre, hhdr, resolveKey, hkid, hfind]

/-- C3 witness: the well-formed, correctly signed token `tok1` against the
empty KeySet fails with KeyNotFoundError (no crash on the empty set). -/
theorem c3_key_not_found_witness :
    validate_github_token tok1 jwksEmpty none env0 now1 = .error .keyNotFound :=
  c3_key_not_found tok1 jwksEmpty none env0 now1 ⟨.RS256, some "k1"⟩ "k1"
    rfl rfl rfl rfl

/-- C4 counterexample: `tokFoo` starts with "eyJ" but its first dot-separated
segment base64url-decodes to a JSON object with no algorithm member, so the
claim's condition holds; yet validation fails with HeaderDecodeError (from
`decode_header`), not with MalformedTokenError, because the code's format
pre-check is only the three-byte prefix test `starts_with("eyJ")`. -/
theorem c4_counterexample :
    segmentJson (firstSegment tokFoo) = some (.obj [("foo", .str "bar")]) ∧
    validate_github_token tokFoo jwks1 none env0 now1 = .error .headerDecode :=
  ⟨rfl, rfl⟩

/-- C4 amended: an input failing the "eyJ" prefix test fails with
MalformedTokenError; an input passing it whose header segment does not decode
fails with HeaderDecodeError; in either case no key lookup happens — the
result does not depend on the KeySet. -/
theorem c4_amended (token : String) (jwks jwks' : GithubJWKS)
    (expected_audience : Option String) (env : Env) (now : Nat) :
    (startsWithEyJ token = false →
      validate_github_token token jwks expected_audience env now =
        .error .malformedToken) ∧
    (startsWithEyJ token = true → decode_header token = none →
      validate_github_token token jwks expected_audience env now =
        .error .headerDecode) ∧
    (decode_header token = none →
      validate_github_token token jwks expected_audience env now =
        validate_github_token token jwks' expected_audience env now) := by
  refine ⟨fun hpre => ?_, fun hpre hhdr => ?_, fun hhdr => ?_⟩
  · unfold validate_github_token validateCore
    simp [hpre]
  · unfold validate_github_token validateCore
    simp [hpre, hhdr]
  · unfold validate_github_token validateCore
    cases hpre : startsWithEyJ token with
    | false => simp [hpre]
    | true => simp [hpre, hhdr]

/-- C4 amended witness: a non-JWT string fails with MalformedTokenError, and
`tokFoo` (prefix passes, header decode fails) fails with HeaderDecodeError
independently of the KeySet. -/
theorem c4_amended_witness :
    validate_github_token "not-a-jwt" jwks1 none env0 now1 = .error .malformedToken ∧
    validate_github_token tokFoo jwks1 none env0 now1 = .error .headerDecode ∧
    validate_github_token tokFoo jwks1 none env0 now1 =
      validate_github_token tokFoo jwksEmpty none env0 now1 :=
  ⟨(c4_amended "not-a-jwt" jwks1 jwksEmpty none env0 now1).1 rfl,
   (c4_amended tokFoo jwks1 jwksEmpty none env0 now1).2.1 rfl rfl,
   (c4_amended tokFoo jwks1 jwksEmpty none env0 now1).2.2 rfl⟩

/-- C2: a token whose header declares an algorithm other than RS256 fails
with AlgorithmMismatchError once key resolution has produced the matching
key (the "even when a key matching the token's kid exists" case), before any
signature is examined; and the signature-verification primitive only ever
accepts RSA keys with the RS256 (RSA / SHA-256) algorithm. -/
theorem c2_alg_mismatch :
    (∀ (token : String) (jwks : GithubJWKS) (expected_audience : Option String)
       (env : Env) (now : Nat) (msg sigSeg hdrSeg pldSeg : List Char)
       (a : Algorithm) (kid : String) (K : JWK) (nb eb : List Nat),
       startsWithEyJ token = true →
       splitLastDot token.data = some (msg, sigSeg) →
       splitLastDot msg = some (hdrSeg, pldSeg) →
       headerFromEncoded hdrSeg = some ⟨a, some kid⟩ →
       a ≠ .RS256 →
       jwks.keys.find? (fun k => k.kid == kid) = some K →
       b64urlDecode K.n.data = some nb →
       b64urlDecode K.e.data = some eb →
       validate_github_token token jwks expected_audience env now =
         .error (.tokenDecode .invalidAlgorithm)) ∧
    (∀ (key : DecodingKey) (alg : Algorithm) (msg : List Char) (sig : List Nat),
       verifySig key alg msg sig = true →
       alg = .RS256 ∧ keyFamily key = .Rsa) := by
  constructor
  · intro token jwks expected_audience env now msg sigSeg hdrSeg pldSeg a kid K nb eb
      hpre h1 h2 hh ha hf hn he
    have hdh : decode_header token = some ⟨a, some kid⟩ := by
      unfold decode_header
      simp [h1, h2, hh]
    unfold validate_github_token validateCore
    simp [hpre, hdh, resolveKey, hf, from_rsa_components, hn, he]
    unfold jwtDecode
    simp [mkValidation, algFamily, keyFamily, h1, h2, hh, ha]
  · intro key alg msg sig hv
    cases key <;> cases alg <;> simp [verifySig, keyFamily] at hv ⊢

/-- C2 witness: the token `tokHS` declares HS256 under the key id "k1",
which is present in `jwks1` with valid components; validation fails with the
algorithm-mismatch decode error. -/
theorem c2_alg_mismatch_witness :
    validate_github_token tokHS jwks1 none env0 now1 =
      .error (.tokenDecode .invalidAlgorithm) :=
  c2_alg_mismatch.1 tokHS jwks1 none env0 now1 (hdrSegHS ++ ('.' :: pldSeg1))
    (b64urlEncode [1, 2, 3]) hdrSegHS pldSeg1 .HS256 "k1" key1 [1, 0, 1] [1, 0, 1]
    rfl rfl rfl rfl (by decide) rfl rfl rfl

/-- C5: round-trip.  With a KeySet containing the key with kid "k1", a token
signed (RS256) by the private counterpart of that key, carrying the standard
claims and an unexpired `exp`, no expected audience, and no expected
organization or repository configured, validation returns exactly the claims
asserted in the token. -/
theorem c5_roundtrip (token : String) (jwks : GithubJWKS) (now : Nat)
    (K : JWK) (msg sigSeg hdrSeg pldSeg : List Char) (nb eb : List Nat)
    (pJson : Json) (expv : Nat) (sub repo owner ref : String) (iat : Nat)
    (hpre : startsWithEyJ token = true)
    (h1 : splitLastDot token.data = some (msg, sigSeg))
    (h2 : splitLastDot msg = some (hdrSeg, pldSeg))
    (hh : headerFromEncoded hdrSeg = some ⟨.RS256, some "k1"⟩)
    (hf : jwks.keys.find? (fun k => k.kid == "k1") = some K)
    (hn : b64urlDecode K.n.data = some nb)
    (he : b64urlDecode K.e.data = some eb)
    (hsig : b64urlDecode sigSeg = some (rs256Sign nb eb msg))
    (hpj : segmentJson pldSeg = some pJson)
    (hexp : jsonLookup pJson "exp" = some (.num expv))
    (hfresh : now ≤ expv + 60)
    (hc : claimsFromJson pJson = some ⟨sub, repo, owner, ref, iat⟩) :
    validate_github_token token jwks none ⟨none, none⟩ now =
      .ok ⟨sub, repo, owner, ref, iat⟩ := by
  have hdh : decode_header token = some ⟨.RS256, some "k1"⟩ := by
    unfold decode_header
    simp [h1, h2, hh]
  have hlt : ¬ (expv + 60 < now) := by omega
  unfold validate_github_token validateCore
  simp [hpre, hdh, resolveKey, hf, from_rsa_components, hn, he]
  unfold jwtDecode
  simp [mkValidation, algFamily, keyFamily, h1, h2, hh, hsig, verifySig, hpj,
        validateClaims, expParsed, expCheck, nbfCheck, audCheck, hexp, hlt, hc,
        envCheck]

/-- C5 witness: the concrete token `tok1` round-trips to its asserted
claims. -/
theorem c5_roundtrip_witness :
    validate_github_token tok1 jwks1 none ⟨none, none⟩ now1 = .ok claims1 :=
  c5_roundtrip tok1 jwks1 now1 key1 msg1 sigSeg1 hdrSeg1 pldSeg1 nb1 eb1
    pJson1 1700000600 "sub" "org/repo" "org" "ref" 1700000000
    rfl rfl rfl rfl rfl rfl rfl rfl rfl rfl (by decide) rfl

/-- C6: for a token that passes core verification, the organization check
runs exactly when `GITHUB_ORG` is set (case-sensitive equality with
`repository_owner`, failing with OrganizationMismatchError), the repository
check exactly when `GITHUB_REPO` is set (against `repository`, failing with
RepositoryMismatchError), and with neither set — or with both matching — the
verified claims are returned. -/
theorem c6_org_repo_binding (token : String) (jwks : GithubJWKS)
    (expected_audience : Option String) (now : Nat) (c : GitHubClaims)
    (hok : validateCore token jwks expected_audience now = .ok c) :
    (validate_github_token token jwks expected_audience ⟨none, none⟩ now = .ok c) ∧
    (∀ (org : String) (repo? : Option String), c.repository_owner ≠ org →
      validate_github_token token jwks expected_audience ⟨some org, repo?⟩ now =
        .error .organizationMismatch) ∧
    (∀ (org? : Option String) (repo : String),
      (org? = none ∨ org? = some c.repository_owner) → c.repository ≠ repo →
      validate_github_token token jwks expected_audience ⟨org?, some repo⟩ now =
        .error .repositoryMismatch) ∧
    (validate_github_token token jwks expected_audience
        ⟨some c.repository_owner, some c.repository⟩ now = .ok c) := by
  refine ⟨?_, ?_, ?_, ?_⟩
  · unfold validate_github_token
    simp [hok, envCheck]
  · intro org repo? horg
    unfold validate_github_token
    simp [hok, envCheck, horg]
  · intro org? repo horg hrepo
    unfold validate_github_token
    rcases horg with h | h <;> subst h <;> simp [hok, envCheck, hrepo]
  · unfold validate_github_token
    simp [hok, envCheck]

/-- C6 witness: `tok1` (owner "org", repository "org/repo") succeeds with no
expectations and with matching expectations, fails with
OrganizationMismatchError under expected organization "other-org", and fails
with RepositoryMismatchError under expected repository "org/other". -/
theorem c6_org_repo_binding_witness :
    validate_github_token tok1 jwks1 none ⟨none, none⟩ now1 = .ok claims1 ∧
    validate_github_token tok1 jwks1 none ⟨some "other-org", none⟩ now1 =
      .error .organizationMismatch ∧
    validate_github_token tok1 jwks1 none ⟨none, some "org/other"⟩ now1 =
      .error .repositoryMismatch ∧
    validate_github_token tok1 jwks1 none ⟨some "org", some "org/repo"⟩ now1 =
      .ok claims1 := by
  have h := c6_org_repo_binding tok1 jwks1 none now1 claims1 rfl
  exact ⟨h.1, h.2.1 "other-org" none (by decide),
         h.2.2.1 none "org/other" (Or.inl rfl) (by decide), h.2.2.2⟩

/-- Helper: the audience-claim membership scan over an array of JSON strings
equals a plain list-containment test. -/
theorem audAnyEq (auds : List String) (a : String) :
    ((auds.map Json.str).any
      (fun x => match x with | .str s => List.contains [a] s | _ => false)) =
    auds.contains a := by
  induction auds with
  | nil => rfl
  | cons x xs ih =>
    simp only [List.map_cons, List.any_cons, ih]
    congr 1
    show (List.elem x [a]) = (a == x)
    simp only [List.elem]
    cases h : x == a with
    | true =>
      have hx : x = a := eq_of_beq h
      subst hx
      simp
    | false =>
      have hx : x ≠ a := fun he => by
        subst he
        simp at h
      have hax : (a == x) = false := by
        cases hax : a == x with
        | true => exact absurd (eq_of_beq hax).symm hx
        | false => rfl
      simp [hax]

/-- Helper: an array of JSON strings passes the all-strings test of the
audience check. -/
theorem audAllStr (auds : List String) :
    ((auds.map Json.str).all
      (fun x => match x with | .str _ => true | _ => false)) = true := by
  induction auds with
  | nil => rfl
  | cons x xs ih =>
    simp only [List.map_cons, List.all_cons, ih]
    rfl

/-- C7: for a token whose pipeline reaches claim validation (well-formed,
known key, valid signature, payload deserializable into the claims
structure — `decode` deserializes the typed claims before validating them —
and fresh `exp`) and whose audience claim is an array of strings: if the
expected audience supplied to `validate` is not contained in that array,
validation fails with AudienceMismatchError; if it is contained, the result
is identical to running `validate` with no expected audience at all — i.e.
the audience check passes and, symmetrically, no audience check is applied
when no expected audience is supplied. -/
theorem c7_audience (token : String) (jwks : GithubJWKS) (env : Env) (now : Nat)
    (K : JWK) (msg sigSeg hdrSeg pldSeg : List Char) (kid : String)
    (nb eb : List Nat) (pJson : Json) (expv : Nat) (c : GitHubClaims)
    (hpre : startsWithEyJ token = true)
    (h1 : splitLastDot token.data = some (msg, sigSeg))
    (h2 : splitLastDot msg = some (hdrSeg, pldSeg))
    (hh : headerFromEncoded hdrSeg = some ⟨.RS256, some kid⟩)
    (hf : jwks.keys.find? (fun k => k.kid == kid) = some K)
    (hn : b64urlDecode K.n.data = some nb)
    (he : b64urlDecode K.e.data = some eb)
    (hsig : b64urlDecode sigSeg = some (rs256Sign nb eb msg))
    (hpj : segmentJson pldSeg = some pJson)
    (hc : claimsFromJson pJson = some c)
    (hexp : jsonLookup pJson "exp" = some (.num expv))
    (hfresh : now ≤ expv + 60) :
    (∀ (a : String) (auds : List String),
      jsonLookup pJson "aud" = some (.arr (auds.map Json.str)) →
      auds.contains a = false →
      validate_github_token token jwks (some a) env now =
        .error (.tokenDecode .invalidAudience)) ∧
    (∀ (a : String) (auds : List String),
      jsonLookup pJson "aud" = some (.arr (auds.map Json.str)) →
      auds.contains a = true →
      validate_github_token token jwks (some a) env now =
        validate_github_token token jwks none env now) := by
  have hdh : decode_header token = some ⟨.RS256, some kid⟩ := by
    unfold decode_header
    simp [h1, h2, hh]
  have hlt : ¬ (expv + 60 < now) := by omega
  constructor
  · intro a auds haud hno
    have hno' : a ∉ auds := by simpa using hno
    unfold validate_github_token validateCore
    simp [hpre, hdh, resolveKey, hf, from_rsa_components, hn, he]
    unfold jwtDecode
    simp [mkValidation, algFamily, keyFamily, h1, h2, hh, hsig, verifySig, hpj,
          validateClaims, expParsed, expCheck, nbfCheck, audCheck, hexp, hlt,
          haud, audAllStr, audAnyEq, hno', hc]
  · intro a auds haud hyes
    have hyes' : a ∈ auds := by simpa using hyes
    unfold validate_github_token validateCore
    simp [hpre, hdh, resolveKey, hf, from_rsa_components, hn, he]
    unfold jwtDecode
    simp [mkValidation, algFamily, keyFamily, h1, h2, hh, hsig, verifySig, hpj,
          validateClaims, expParsed, expCheck, nbfCheck, audCheck, hexp, hlt,
          haud, audAllStr, audAnyEq, hyes', hc]

/-- C7 witness: with expected audience "aud1", the token asserting audience
["aud2"] fails with AudienceMismatchError, and the token asserting audience
["aud1"] behaves exactly as with no expected audience — and succeeds. -/
theorem c7_audience_witness :
    validate_github_token tokAud2 jwks1 (some "aud1") env0 now1 =
      .error (.tokenDecode .invalidAudience) ∧
    validate_github_token tokAud1 jwks1 (some "aud1") env0 now1 =
      validate_github_token tokAud1 jwks1 none env0 now1 ∧
    validate_github_token tokAud1 jwks1 (some "aud1") env0 now1 = .ok claims1 := by
  have h2t := c7_audience tokAud2 jwks1 env0 now1 key1 msgAud2
    (b64urlEncode (rs256Sign nb1 eb1 msgAud2)) hdrSeg1 pldSegAud2 "k1"
    nb1 eb1 pJsonAud2 1700000600 claims1
    rfl rfl rfl rfl rfl rfl rfl rfl rfl rfl rfl (by decide)
  have h1t := c7_audience tokAud1 jwks1 env0 now1 key1 msgAud1
    (b64urlEncode (rs256Sign nb1 eb1 msgAud1)) hdrSeg1 pldSegAud1 "k1"
    nb1 eb1 pJsonAud1 1700000600 claims1
    rfl rfl rfl rfl rfl rfl rfl rfl rfl rfl rfl (by decide)
  have hb := h1t.2 "aud1" ["aud1"] rfl rfl
  exact ⟨h2t.1 "aud1" ["aud2"] rfl rfl, hb, hb.trans rfl⟩

/-- C8 counterexample: two tokens whose expiry claim lies in the past at
validation time (`now1` = 1700000000) do not fail with the
expired-or-not-yet-valid error.  `tokExpiredBadSig` (exp 1600000000, invalid
signature) fails with the signature error instead, because `decode` verifies
the signature before looking at any claim; `tokLeeway` (exp 1699999970,
thirty seconds in the past, valid signature) is accepted outright, because
the library's default validation carries a 60 second leeway. -/
theorem c8_counterexample :
    (1600000000 < now1 ∧
      validate_github_token tokExpiredBadSig jwks1 none env0 now1 =
        .error (.tokenDecode .invalidSignature)) ∧
    (1699999970 < now1 ∧
      validate_github_token tokLeeway jwks1 none env0 now1 = .ok claimsLeeway) :=
  ⟨⟨by decide, rfl⟩, ⟨by decide, rfl⟩⟩

/-- C8 amended: for a token that passes signature verification and whose
payload deserializes into the claims structure (`decode` deserializes the
typed claims before validating them, so a payload failing deserialization
gets the serde error instead), an `exp` more than the default 60 second
leeway in the past fails with the expired-token decode error (this happens
before audience checking); an invalid signature is reported as a signature
failure instead, and expiry within the leeway is accepted, per the
verification library's default semantics (`exp` required and checked with
60 second leeway, `nbf` not checked, `iat` never checked). -/
theorem c8_expired (token : String) (jwks : GithubJWKS)
    (expected_audience : Option String) (env : Env) (now : Nat)
    (K : JWK) (msg sigSeg hdrSeg pldSeg : List Char) (kid : String)
    (nb eb : List Nat) (pJson : Json) (expv : Nat) (c : GitHubClaims)
    (hpre : startsWithEyJ token = true)
    (h1 : splitLastDot token.data = some (msg, sigSeg))
    (h2 : splitLastDot msg = some (hdrSeg, pldSeg))
    (hh : headerFromEncoded hdrSeg = some ⟨.RS256, some kid⟩)
    (hf : jwks.keys.find? (fun k => k.kid == kid) = some K)
    (hn : b64urlDecode K.n.data = some nb)
    (he : b64urlDecode K.e.data = some eb)
    (hsig : b64urlDecode sigSeg = some (rs256Sign nb eb msg))
    (hpj : segmentJson pldSeg = some pJson)
    (hc : claimsFromJson pJson = some c)
    (hexp : jsonLookup pJson "exp" = some (.num expv))
    (hold : expv + 60 < now) :
    validate_github_token token jwks expected_audience env now =
      .error (.tokenDecode .expiredSignature) := by
  have hdh : decode_header token = some ⟨.RS256, some kid⟩ := by
    unfold decode_header
    simp [h1, h2, hh]
  unfold validate_github_token validateCore
  simp [hpre, hdh, resolveKey, hf, from_rsa_components, hn, he]
  unfold jwtDecode
  simp [mkValidation, algFamily, keyFamily, h1, h2, hh, hsig, verifySig, hpj,
        validateClaims, expParsed, expCheck, hexp, hold, hc]

/-- C8 amended witness: the correctly signed, deserializable `tokExpired`
(exp 1600000000, far beyond the leeway at `now1`) fails with the
expired-token error. -/
theorem c8_expired_witness :
    validate_github_token tokExpired jwks1 none env0 now1 =
      .error (.tokenDecode .expiredSignature) :=
  c8_expired tokExpired jwks1 none env0 now1 key1 msgExpired
    (b64urlEncode (rs256Sign nb1 eb1 msgExpired)) hdrSeg1 pldSegExpired "k1"
    nb1 eb1 pJsonExpired 1600000000 ⟨"sub", "org/repo", "org", "ref", 1600000000⟩
    rfl rfl rfl rfl rfl rfl rfl rfl rfl rfl rfl (by decide)

/-- C9: the claim says the result of `validate` is determined solely by its
explicit arguments plus the current time, irrespective of process-global
state such as environment variables.  The code reads `GITHUB_ORG` and
`GITHUB_REPO` via `std::env::var` in the middle of validation (src/lib.rs
lines 167 and 177; the environment is therefore an explicit parameter of the
embedding), and two runs with identical token, KeySet, expected audience and
clock give different results under different environments. -/
theorem c9_env_dependence :
    validate_github_token tok1 jwks1 none ⟨none, none⟩ now1 = .ok claims1 ∧
    validate_github_token tok1 jwks1 none ⟨some "other-org", none⟩ now1 =
      .error .organizationMismatch ∧
    validate_github_token tok1 jwks1 none ⟨none, none⟩ now1 ≠
      validate_github_token tok1 jwks1 none ⟨some "other-org", none⟩ now1 := by
  refine ⟨rfl, rfl, ?_⟩
  intro h
  rw [show validate_github_token tok1 jwks1 none ⟨none, none⟩ now1 =
        .ok claims1 from rfl,
      show validate_github_token tok1 jwks1 none ⟨some "other-org", none⟩ now1 =
        .error .organizationMismatch from rfl] at h
  exact Except.noConfusion h

/-- C10 counterexample: `badDoc` parses successfully into the key set
`badKS`, although its first key has key type "EC" rather than "RSA", an empty
modulus and an exponent that is not valid base64url, and both keys share the
`kid` "a"; serde-derived parsing enforces none of the spec's key-set
invariant. -/
theorem c10_counterexample :
    githubJWKSFromJson badDoc = some badKS ∧
    specKeySetInvariant badKS = false ∧
    badKS.keys.map (fun k => k.kid) = ["a", "a"] ∧
    (badKS.keys.map (fun k => k.kty)).head? = some "EC" :=
  ⟨rfl, rfl, rfl, rfl⟩

/-- Helper: serde acceptance of one key coincides with the stated shape
predicate (required string members `kty`, `kid`, `n`, `e`; optional members
well-typed when present). -/
theorem jwkFromJson_isSome (j : Json) : (jwkFromJson j).isSome = jwkShapeOk j := by
  cases j with
  | obj fs =>
    cases h1 : reqStringField (.obj fs) "kty" <;>
    cases h2 : optStringField (.obj fs) "use_" <;>
    cases h3 : reqStringField (.obj fs) "kid" <;>
    cases h4 : optStringField (.obj fs) "alg" <;>
    cases h5 : reqStringField (.obj fs) "n" <;>
    cases h6 : reqStringField (.obj fs) "e" <;>
    cases h7 : optStrListField (.obj fs) "x5c" <;>
    cases h8 : optStringField (.obj fs) "x5t" <;>
    cases h9 : optStringField (.obj fs) "x5t_s256" <;>
      simp [jwkFromJson, jwkShapeOk, h1, h2, h3, h4, h5, h6, h7, h8, h9]
  | null => rfl
  | bool b => rfl
  | num n => rfl
  | str s => rfl
  | arr xs => rfl

/-- Helper: serde acceptance of the key list coincides with the elementwise
shape test. -/
theorem optMapM_isSome (xs : List Json) :
    (optMapM jwkFromJson xs).isSome = xs.all jwkShapeOk := by
  induction xs with
  | nil => rfl
  | cons x xs ih =>
    have hx := jwkFromJson_isSome x
    simp only [List.all_cons, ← hx, ← ih, optMapM]
    cases jwkFromJson x <;> cases optMapM jwkFromJson xs <;> simp

/-- C10 amended: parsing the issuer's JSON document succeeds exactly when the
document is an object whose `keys` member is an array in which every element
is an object carrying string members `kty`, `kid`, `n`, `e` (with `use_`,
`alg`, `x5c`, `x5t`, `x5t_s256` optional and well-typed when present); no
semantic invariant — key type "RSA", non-empty or base64url-decodable
modulus/exponent, `kid` uniqueness — is enforced by parsing. -/
theorem c10_parse_shape (j : Json) :
    (githubJWKSFromJson j).isSome = docShapeOk j := by
  unfold githubJWKSFromJson docShapeOk
  cases hks : jsonLookup j "keys" with
  | none => rfl
  | some jk =>
    cases jk with
    | arr ks =>
      show (match optMapM jwkFromJson ks with
            | some keys => some (⟨keys⟩ : GithubJWKS)
            | none => none).isSome = ks.all jwkShapeOk
      rw [← optMapM_isSome ks]
      cases hm : optMapM jwkFromJson ks <;> simp [hm]
    | null => rfl
    | bool b => rfl
    | num n => rfl
    | str s => rfl
    | obj fs => rfl
